import Mathlib

/-!
Shallow embedding of hypr-plasmoid (src/main.rs), a small Rust program that
manages "plasmoid" widget windows under the Hyprland window manager.

External effects (keyword injection, window dispatches, process spawning,
bus activation) are recorded as an explicit trace of actions.  External
queries (visible clients, cursor position, monitor list, the D-Bus
StatusNotifier watcher and items) are modelled by a read-only environment
of oracles: one command invocation is assumed to run against a stable
external state, matching the ordering guarantees of the program.
-/

/-- Fixed padding constant, `const PADDING: i64 = 20`. -/
def PADDING : Int := 20

/-- Widget descriptor from the registry (`struct Plasmoid`). -/
structure Plasmoid where
  title : String
  plasmoid : String
  width : Nat
  height : Nat
deriving DecidableEq, Repr

/-- `type Config = HashMap<String, Plasmoid>` — modelled as an association
list; the hash map's (arbitrary) iteration order becomes the list order. -/
abbrev Config := List (String × Plasmoid)

/-- Focused-monitor record as the program reads it.  `logicalWidth` stands
for the value `(mon.width as f64 / mon.scale as f64) as i64` the code
computes (the physical width divided by the scale factor, truncated);
the floating-point division itself is abstracted into this field. -/
structure Monitor where
  x : Int
  y : Int
  logicalWidth : Int
  reservedTop : Int
  focused : Bool
deriving DecidableEq, Repr

/-- One externally visible effect of the program. -/
inductive Act where
  | keywordSet (key val : String)
  | dispatchClose (title : String)
  | dispatchFocus (title : String)
  | dispatchExec (cmd : String)
  | moveCursor (x y : Int)
  | spawn (plasmoid : String)
  | activate (dest path : String) (x y : Int)
deriving DecidableEq, Repr

/-- How a fallible command invocation ends: normal return, a propagated
`zbus` error, or a Rust panic. -/
inductive Outcome where
  | ok
  | err (e : String)
  | panicked (msg : String)
deriving DecidableEq, Repr

/-- The external world one command invocation runs against. -/
structure Env where
  /-- `Clients::get()`: titles of the currently visible windows;
  `none` models a failed query. -/
  clients : Option (List String)
  /-- `CursorPosition::get()`; `none` models a failed query. -/
  cursor : Option (Int × Int)
  /-- `Monitors::get()`; `none` models a failed query. -/
  monitors : Option (List Monitor)
  /-- Whether `WatcherProxy::new(conn)` succeeds. -/
  watcherOk : Bool
  /-- `watcher.registered_status_notifier_items()`; `none` models failure. -/
  registeredItems : Option (List String)
  /-- Whether the per-item `SniProxy` builder chain
  (`destination`/`path`/`build`) succeeds for a given (dest, path). -/
  buildOk : String → String → Bool
  /-- `sni.id()` for a given (dest, path); `none` models a failed query. -/
  sniId : String → String → Option String
  /-- Result of the activation proxy chain in `show`
  (`destination`/`path`/`build`/`activate`): `some e` is the propagated
  `zbus` error, `none` is success. -/
  activateErr : String → String → Option String
  /-- Whether `wait_for_window(title, _)` observes the window within its
  deadline; abstracts the real-time poll loop. -/
  appears : String → Bool

/-- `fn title_rule`. -/
def title_rule (title : String) : String :=
  "title:^(" ++ title ++ ")$"

/-- `fn is_visible`: a failed client query (`.ok()`) yields `false`. -/
def is_visible (env : Env) (title : String) : Bool :=
  match env.clients with
  | none => false
  | some ts => ts.contains title

/-- `fn set_focus_mode` as the keyword writes it performs. -/
def set_focus_mode (b : Bool) : List Act :=
  [Act.keywordSet "input:follow_mouse" (if b then "2" else "1"),
   Act.keywordSet "input:float_switch_override_focus" (if b then "0" else "1")]
  ++ (if b then [Act.keywordSet "cursor:no_warps" "1"] else [])

/-- Rust `Ord::clamp`: `none` models the panic of its
`assert!(min <= max)` when the lower bound exceeds the upper bound. -/
def rustClamp (v lo hi : Int) : Option Int :=
  if lo ≤ hi then some (if v < lo then lo else if v > hi then hi else v)
  else none

/-- The placement point computed in `set_window_rules` (lines 88-94):
x is `(cursor.x - PADDING).clamp(mon_x + PADDING, mon_x + mon_width - width - PADDING)`
and y is `(cursor.y - PADDING).max(mon.y + mon.reserved.1 + PADDING)`.
`none` models the clamp panic. -/
def resolve_xy (p : Plasmoid) (c : Int × Int) (mon : Monitor) : Option (Int × Int) :=
  let mon_x := mon.x
  let mon_width := mon.logicalWidth
  match rustClamp (c.1 - PADDING) (mon_x + PADDING)
      (mon_x + mon_width - (p.width : Int) - PADDING) with
  | none => none
  | some x => some (x, max (c.2 - PADDING) (mon.y + mon.reservedTop + PADDING))

/-- The three window rules injected for a placement at (x, y). -/
def rule_acts (p : Plasmoid) (x y : Int) : List Act :=
  [Act.keywordSet "windowrule" ("float," ++ title_rule p.title),
   Act.keywordSet "windowrule"
     ("size " ++ toString p.width ++ " " ++ toString p.height ++ "," ++ title_rule p.title),
   Act.keywordSet "windowrule"
     ("move " ++ toString x ++ " " ++ toString y ++ "," ++ title_rule p.title)]

/-- `fn set_window_rules`: early-returns (emitting nothing) when the
cursor, the monitor list, or a focused monitor is unavailable; `none`
models the clamp panic inside `resolve_xy`. -/
def set_window_rules (env : Env) (p : Plasmoid) : Option (List Act) :=
  match env.cursor with
  | none => some []
  | some c =>
    match env.monitors with
    | none => some []
    | some mons =>
      match mons.find? (fun m => m.focused) with
      | none => some []
      | some mon =>
        match resolve_xy p c mon with
        | none => none
        | some (x, y) => some (rule_acts p x y)

/-- `str::split_once` on the underlying character list. -/
def splitOnceAux (c : Char) : List Char → Option (List Char × List Char)
  | [] => none
  | x :: xs =>
    if x = c then some ([], xs)
    else (splitOnceAux c xs).map (fun pr => (x :: pr.1, pr.2))

/-- `str::split_once`: split at the first occurrence of `c`. -/
def splitOnce (s : String) (c : Char) : Option (String × String) :=
  (splitOnceAux c s.toList).map (fun pr => (String.mk pr.1, String.mk pr.2))

/-- Rust `str::ends_with`. -/
def ends_with (s suffix : String) : Bool :=
  List.isSuffixOf suffix.toList s.toList

/-- The loop body of `find_sni` (lines 119-132).  Every fallible step of a
candidate item — the address split, the proxy builder chain, the identity
query — is written with the `?` operator in the source, so a failure
returns `none` from the whole function rather than skipping the item. -/
def findSniLoop (env : Env) (suffix : String) : List String → Option (String × String)
  | [] => none
  | item :: rest =>
    match splitOnce item '/' with
    | none => none
    | some (dest, path) =>
      if env.buildOk dest ("/" ++ path) then
        match env.sniId dest ("/" ++ path) with
        | none => none
        | some i =>
          if ends_with i suffix then some (dest, "/" ++ path)
          else findSniLoop env suffix rest
      else none

/-- `fn find_sni`. -/
def find_sni (env : Env) (plasmoid : String) : Option (String × String) :=
  if env.watcherOk then
    match env.registeredItems with
    | none => none
    | some items => findSniLoop env ("plasmawindowed_" ++ plasmoid) items
  else none

/-- `fn hide`: close the window only when it is visible. -/
def hide (env : Env) (title : String) : List Act :=
  if is_visible env title then [Act.dispatchClose title] else []

/-- The `for (name, p) in cfg` loop of `hide_all`. -/
def hide_entries (env : Env) (except : Option String) : List (String × Plasmoid) → List Act
  | [] => []
  | np :: rest =>
    (if some np.1 = except then [] else hide env np.2.title)
      ++ hide_entries env except rest

/-- `fn hide_all`. -/
def hide_all (env : Env) (cfg : Config) (except : Option String) : List Act :=
  hide_entries env except cfg
    ++ (if except.isNone then set_focus_mode false else [])

/-- `fn nudge_cursor`: a failed cursor query emits nothing; otherwise two
back-to-back movecursor dispatches. -/
def nudge_cursor (env : Env) : List Act :=
  match env.cursor with
  | none => []
  | some c => [Act.moveCursor (c.1 + 1) c.2, Act.moveCursor c.1 c.2]

/-- The already-`Visible` branch of `show` (lines 182-186): refocus the
window, hide every other widget, return `Ok`. -/
def show_visible (env : Env) (cfg : Config) (name : String) (p : Plasmoid) :
    Outcome × List Act :=
  (Outcome.ok, Act.dispatchFocus p.title :: hide_all env cfg (some name))

/-- The cold (not yet visible) branch of `show` (lines 188-207). -/
def show_cold (env : Env) (cfg : Config) (name : String) (p : Plasmoid) :
    Outcome × List Act :=
  let pre0 := set_focus_mode true ++ hide_all env cfg (some name)
  match set_window_rules env p with
  | none => (Outcome.panicked "clamp", pre0)
  | some ruleActs =>
    let pre := pre0 ++ ruleActs
    match find_sni env p.plasmoid with
    | some (dest, path) =>
      match env.activateErr dest path with
      | some e => (Outcome.err e, pre)
      | none =>
        (Outcome.ok,
          pre ++ [Act.activate dest path 0 0]
            ++ (if env.appears p.title then [Act.dispatchFocus p.title] else []))
    | none =>
      (Outcome.ok,
        pre ++ [Act.spawn p.plasmoid]
          ++ (if env.appears p.title then [Act.dispatchFocus p.title] else []))

/-- `async fn show` (named `show_widget` here because `show` is a Lean
keyword).  `cfg.get(name).expect(..)` panics on an unknown name. -/
def show_widget (env : Env) (cfg : Config) (name : String) : Outcome × List Act :=
  match List.lookup name cfg with
  | none => (Outcome.panicked "unknown plasmoid", [])
  | some p =>
    if is_visible env p.title then show_visible env cfg name p
    else show_cold env cfg name p

/-- `async fn toggle`: note that `show(..).await?` propagates an error (or
a panic unwinds) before `nudge_cursor()` runs. -/
def toggle (env : Env) (cfg : Config) (name : String) : Outcome × List Act :=
  match List.lookup name cfg with
  | none => (Outcome.panicked "unknown plasmoid", [])
  | some p =>
    if is_visible env p.title then
      (Outcome.ok, hide env p.title ++ set_focus_mode false ++ nudge_cursor env)
    else
      match show_widget env cfg name with
      | (Outcome.ok, acts) => (Outcome.ok, acts ++ nudge_cursor env)
      | r => r

/-- The active-window-changed handler installed by `daemon` (lines
255-261).  Input is the new window's title (if any); the result is the new
flag value together with the list of `hide_all` invocations (each recorded
by its `except` argument).  The source's `AtomicBool::swap(false, ..)` —
read the old value and store `false` in one atomic step — appears here as
the sequential read-then-clear of `flag`. -/
def active_window_handler (titles : List String) (flag : Bool) (data : Option String) :
    Bool × List (Option String) :=
  if (match data with | some t => titles.contains t | none => false) then
    (true, [])
  else
    if flag then (false, [none]) else (false, [])

/-- Classifier: is this act a window-rule / keyword injection? -/
def Act.isKeywordSet : Act → Bool
  | Act.keywordSet _ _ => true
  | _ => false

/-- Classifier: is this act a close-window dispatch? -/
def Act.isClose : Act → Bool
  | Act.dispatchClose _ => true
  | _ => false

/-- Classifier: is this act a focus-window dispatch? -/
def Act.isFocus : Act → Bool
  | Act.dispatchFocus _ => true
  | _ => false

/-- Classifier: is this act a process spawn? -/
def Act.isSpawn : Act → Bool
  | Act.spawn _ => true
  | _ => false

/-- Classifier: is this act a bus activation call? -/
def Act.isActivate : Act → Bool
  | Act.activate _ _ _ _ => true
  | _ => false

/-- Classifier: is this act a movecursor dispatch? -/
def Act.isMoveCursor : Act → Bool
  | Act.moveCursor _ _ => true
  | _ => false

/-! ### Concrete fixtures used by witnesses and counterexamples -/

/-- A 1920-wide focused monitor with a 30-pixel reserved top strip. -/
def stdMon : Monitor :=
  { x := 0, y := 0, logicalWidth := 1920, reservedTop := 30, focused := true }

/-- A monitor narrower than `wideWidget.width + 2 * PADDING`. -/
def narrowMon : Monitor :=
  { x := 0, y := 0, logicalWidth := 100, reservedTop := 0, focused := true }

/-- A 200-pixel-wide widget. -/
def wideWidget : Plasmoid :=
  { title := "T", plasmoid := "pl", width := 200, height := 100 }

/-- The calendar widget of the end-to-end scenario in the spec. -/
def calWidget : Plasmoid :=
  { title := "Calendar", plasmoid := "org.kde.plasma.calendar", width := 300, height := 400 }

/-- A healthy baseline environment: no window visible, cursor at (100, 100),
one focused monitor, empty bus item directory, all calls succeed. -/
def baseEnv : Env :=
  { clients := some []
    cursor := some (100, 100)
    monitors := some [stdMon]
    watcherOk := true
    registeredItems := some []
    buildOk := fun _ _ => true
    sniId := fun _ _ => none
    activateErr := fun _ _ => none
    appears := fun _ => false }

/-- Environment whose focused monitor is too narrow for `wideWidget`. -/
def narrowEnv : Env := { baseEnv with monitors := some [narrowMon] }

/-- Bus directory with a failing first candidate and a matching second one:
the identity query fails for item `"org.a/P1"` and answers
`"plasmawindowed_foo"` for item `"org.b/P2"`. -/
def busFailEnv : Env :=
  { baseEnv with
    registeredItems := some ["org.a/P1", "org.b/P2"]
    sniId := fun d p => if d = "org.b" ∧ p = "/P2" then some "plasmawindowed_foo" else none }

/-- Environment where discovery finds the widget but the activation call
fails with error `"fail"`. -/
def actErrEnv : Env :=
  { baseEnv with
    registeredItems := some ["a.b/P"]
    sniId := fun d p => if d = "a.b" ∧ p = "/P" then some "plasmawindowed_pl" else none
    activateErr := fun _ _ => some "fail" }

/-- One-widget configuration. -/
def cfgOne : Config := [("w", wideWidget)]

/-- Environment in which `wideWidget`'s window is visible. -/
def visEnv : Env := { baseEnv with clients := some ["T"] }

/-- Two-widget configuration with distinct titles. -/
def cfgTwo : Config := [("w", wideWidget), ("c", calWidget)]

/-- Environment in which both widgets of `cfgTwo` are visible. -/
def visTwoEnv : Env := { baseEnv with clients := some ["T", "Calendar"] }

/-- Two widgets sharing the display title `"T"`. -/
def dupA : Plasmoid := { title := "T", plasmoid := "pa", width := 10, height := 10 }

/-- Second widget sharing the display title `"T"`. -/
def dupB : Plasmoid := { title := "T", plasmoid := "pb", width := 10, height := 10 }

/-- Configuration with two widgets whose titles collide. -/
def cfgDup : Config := [("a", dupA), ("b", dupB)]

/-- Environment where a client query fails. -/
def noClientsEnv : Env := { baseEnv with clients := none }

/-- Environment where the cursor query fails. -/
def noCursorEnv : Env := { baseEnv with cursor := none }

/-! ### Helper lemmas -/

/-- The `hide_all` loop with `except = some W` keeps exactly the entries of
other widgets whose window is visible, closing each once. -/
theorem hide_entries_some_eq (env : Env) (W : String) (l : List (String × Plasmoid)) :
    hide_entries env (some W) l =
      (l.filter (fun np => decide (np.1 ≠ W) && is_visible env np.2.title)).map
        (fun np => Act.dispatchClose np.2.title) := by
  induction l with
  | nil => rfl
  | cons np rest ih =>
    by_cases hW : np.1 = W
    · simp [hide_entries, hW, ih]
    · by_cases hv : is_visible env np.2.title
      · simp [hide_entries, hide, hW, hv, ih]
      · simp [hide_entries, hide, hW, hv, ih]

/-- The `hide_all` loop with no `except` closes exactly the visible entries. -/
theorem hide_entries_none_eq (env : Env) (l : List (String × Plasmoid)) :
    hide_entries env none l =
      (l.filter (fun np => is_visible env np.2.title)).map
        (fun np => Act.dispatchClose np.2.title) := by
  induction l with
  | nil => rfl
  | cons np rest ih =>
    by_cases hv : is_visible env np.2.title
    · simp [hide_entries, hide, hv, ih]
    · simp [hide_entries, hide, hv, ih]

/-- Every act the `hide_all` loop emits is a close dispatch. -/
theorem hide_entries_all_close (env : Env) (ex : Option String)
    (l : List (String × Plasmoid)) :
    ∀ a ∈ hide_entries env ex l, a.isClose = true := by
  induction l with
  | nil => intro a ha; cases ha
  | cons np rest ih =>
    intro a ha
    unfold hide_entries at ha
    rcases List.mem_append.mp ha with h | h
    · by_cases hx : some np.1 = ex
      · simp [hx] at h
      · rw [if_neg hx] at h
        unfold hide at h
        by_cases hv : is_visible env np.2.title
        · rw [if_pos hv] at h
          simp at h
          subst h
          rfl
        · simp [hv] at h
    · exact ih a h

/-! ### C1 — narrow monitor -/

/-- C1 counterexample: with the focused monitor narrower than
`width + 2 * PADDING` (100 < 200 + 40) and every query available,
`set_window_rules` returns `none` — the model of the panic raised by Rust's
`Ord::clamp` when its lower bound exceeds its upper bound — instead of
producing a placement at the lower clamp bound as the claim states. -/
theorem C1_counterexample :
    narrowMon.logicalWidth < (wideWidget.width : Int) + 2 * PADDING ∧
    rustClamp (100 - PADDING) (narrowMon.x + PADDING)
      (narrowMon.x + narrowMon.logicalWidth - (wideWidget.width : Int) - PADDING) = none ∧
    set_window_rules narrowEnv wideWidget = none := by
  refine ⟨by decide, by decide, by decide⟩

/-- C1 (amended): whenever the cursor, the monitor list and a focused
monitor are available and the focused monitor's logical width is smaller
than `widget.width + 2 * PADDING`, the lower clamp bound exceeds the upper
bound, so `set_window_rules` panics (modelled as `none`) rather than
returning the lower bound. -/
theorem C1_narrow_monitor_panics (env : Env) (p : Plasmoid) (cx cy : Int)
    (mons : List Monitor) (mon : Monitor)
    (hc : env.cursor = some (cx, cy)) (hm : env.monitors = some mons)
    (hf : mons.find? (fun m => m.focused) = some mon)
    (hn : mon.logicalWidth < (p.width : Int) + 2 * PADDING) :
    set_window_rules env p = none := by
  have hres : resolve_xy p (cx, cy) mon = none := by
    have hlt : ¬ (mon.x + PADDING ≤
        mon.x + mon.logicalWidth - (p.width : Int) - PADDING) := by
      simp only [PADDING] at hn ⊢
      omega
    simp [resolve_xy, rustClamp, hlt]
  simp [set_window_rules, hc, hm, hf, hres]

/-- C1 witness. -/
theorem C1_witness :
    set_window_rules narrowEnv wideWidget = none :=
  C1_narrow_monitor_panics narrowEnv wideWidget 100 100 [narrowMon] narrowMon
    rfl rfl (by decide) (by decide)

/-! ### C8 — placement formulas -/

/-- C8: whenever the cursor, the monitor list and a focused monitor are
available and the resolver produces a placement point, its horizontal
position is `cursor.x - PADDING` clamped into
`[mon.x + PADDING, mon.x + logicalWidth - width - PADDING]` and its
vertical position is `max (cursor.y - PADDING) (mon.y + reservedTop +
PADDING)` with no upper clamp, and `set_window_rules` injects exactly the
float/size/move rules for that point. -/
theorem C8_placement_formula (env : Env) (p : Plasmoid) (cx cy : Int)
    (mons : List Monitor) (mon : Monitor) (x y : Int)
    (hc : env.cursor = some (cx, cy)) (hm : env.monitors = some mons)
    (hf : mons.find? (fun m => m.focused) = some mon)
    (hr : resolve_xy p (cx, cy) mon = some (x, y)) :
    x = max (mon.x + PADDING)
        (min (cx - PADDING) (mon.x + mon.logicalWidth - (p.width : Int) - PADDING)) ∧
    y = max (cy - PADDING) (mon.y + mon.reservedTop + PADDING) ∧
    set_window_rules env p = some (rule_acts p x y) := by
  have hrules : set_window_rules env p = some (rule_acts p x y) := by
    simp [set_window_rules, hc, hm, hf, hr]
  have hxy : x = max (mon.x + PADDING)
        (min (cx - PADDING) (mon.x + mon.logicalWidth - (p.width : Int) - PADDING)) ∧
      y = max (cy - PADDING) (mon.y + mon.reservedTop + PADDING) := by
    simp only [resolve_xy, rustClamp] at hr
    by_cases hle : mon.x + PADDING ≤ mon.x + mon.logicalWidth - (p.width : Int) - PADDING
    · rw [if_pos hle] at hr
      simp only [Option.some.injEq, Prod.mk.injEq] at hr
      obtain ⟨hx, hy⟩ := hr
      constructor
      · rw [← hx]
        split_ifs with h1 h2 <;> omega
      · omega
    · rw [if_neg hle] at hr
      simp at hr
  exact ⟨hxy.1, hxy.2, hrules⟩

/-- C8 witness: cursor at (1000, 500) on the standard monitor places the
calendar widget at (980, 480). -/
theorem C8_witness :
    (980 : Int) = max (stdMon.x + PADDING)
        (min (1000 - PADDING) (stdMon.x + stdMon.logicalWidth - (calWidget.width : Int) - PADDING)) ∧
    (480 : Int) = max (500 - PADDING) (stdMon.y + stdMon.reservedTop + PADDING) ∧
    set_window_rules { baseEnv with cursor := some (1000, 500) } calWidget =
      some (rule_acts calWidget 980 480) :=
  C8_placement_formula { baseEnv with cursor := some (1000, 500) } calWidget
    1000 500 [stdMon] stdMon 980 480 rfl rfl (by decide) (by decide)

/-! ### C2 — candidate failure during discovery -/

/-- C2 counterexample: the bus directory lists a first item whose identity
query fails and a second item whose identity matches the expected suffix
(`findSniLoop` on the second item alone returns it), yet `find_sni`
returns `none`: the failing first candidate aborts the whole scan. -/
theorem C2_counterexample :
    busFailEnv.sniId "org.a" "/P1" = none ∧
    findSniLoop busFailEnv "plasmawindowed_foo" ["org.b/P2"] =
      some ("org.b", "/P2") ∧
    find_sni busFailEnv "foo" = none := by
  refine ⟨by decide, by decide, by decide⟩

/-- C2 (amended): a failure on a candidate item — a missing `/` separator,
a failed proxy build, or a failed identity query — aborts the scan: the
loop returns `none` immediately, regardless of any remaining candidates
(so a later matching item is never reached). -/
theorem C2_candidate_failure_aborts (env : Env) (suffix item : String)
    (rest : List String) :
    (splitOnce item '/' = none →
      findSniLoop env suffix (item :: rest) = none) ∧
    (∀ d pth, splitOnce item '/' = some (d, pth) →
      env.buildOk d ("/" ++ pth) = false →
      findSniLoop env suffix (item :: rest) = none) ∧
    (∀ d pth, splitOnce item '/' = some (d, pth) →
      env.buildOk d ("/" ++ pth) = true →
      env.sniId d ("/" ++ pth) = none →
      findSniLoop env suffix (item :: rest) = none) := by
  refine ⟨fun h => ?_, fun d pth h hb => ?_, fun d pth h hb hi => ?_⟩
  · simp [findSniLoop, h]
  · simp [findSniLoop, h, hb]
  · simp [findSniLoop, h, hb, hi]

/-- C2 witness: in `busFailEnv` the failing first item aborts the scan
even though the second item matches. -/
theorem C2_witness :
    findSniLoop busFailEnv "plasmawindowed_foo" ["org.a/P1", "org.b/P2"] = none :=
  (C2_candidate_failure_aborts busFailEnv "plasmawindowed_foo" "org.a/P1"
    ["org.b/P2"]).2.2 "org.a" "P1" (by decide) (by decide) (by decide)

/-! ### C3 — error handling in show -/

/-- C3 counterexample: the watcher connection succeeds, discovery finds
the widget's bus endpoint, but the activation call fails; `show` returns
that error instead of swallowing it. -/
theorem C3_counterexample :
    actErrEnv.watcherOk = true ∧
    find_sni actErrEnv "pl" = some ("a.b", "/P") ∧
    (show_widget actErrEnv cfgOne "w").1 = Outcome.err "fail" := by
  refine ⟨rfl, by decide, by decide⟩

/-- C3 (amended): a discovery failure is swallowed — `show` falls back to
spawning the process and still returns success — but a failure of the
activation proxy chain is not: `show` propagates it as its own error. -/
theorem C3_activation_error_propagates (env : Env) (cfg : Config) (name : String)
    (p : Plasmoid) (racts : List Act)
    (hp : List.lookup name cfg = some p)
    (hv : is_visible env p.title = false)
    (hr : set_window_rules env p = some racts) :
    (∀ dest path e, find_sni env p.plasmoid = some (dest, path) →
      env.activateErr dest path = some e →
      show_widget env cfg name =
        (Outcome.err e,
         set_focus_mode true ++ hide_all env cfg (some name) ++ racts)) ∧
    (find_sni env p.plasmoid = none →
      (show_widget env cfg name).1 = Outcome.ok ∧
      Act.spawn p.plasmoid ∈ (show_widget env cfg name).2) := by
  constructor
  · intro dest path e hfind hact
    simp [show_widget, hp, hv, show_cold, hr, hfind, hact]
  · intro hfind
    constructor
    · simp [show_widget, hp, hv, show_cold, hr, hfind]
    · simp [show_widget, hp, hv, show_cold, hr, hfind]

/-- C3 witness: in `actErrEnv` the activation error `"fail"` propagates
out of `show` together with the acts performed up to that point. -/
theorem C3_witness :
    show_widget actErrEnv cfgOne "w" =
      (Outcome.err "fail",
       set_focus_mode true ++ hide_all actErrEnv cfgOne (some "w")
         ++ rule_acts wideWidget 80 80) :=
  (C3_activation_error_propagates actErrEnv cfgOne "w" wideWidget
      (rule_acts wideWidget 80 80) rfl (by decide) (by decide)).1
    "a.b" "/P" "fail" (by decide) rfl

/-! ### Trace classification helpers -/

/-- `set_focus_mode` emits only keyword writes, never a movecursor. -/
theorem set_focus_mode_not_moveCursor (b : Bool) :
    ∀ a ∈ set_focus_mode b, a.isMoveCursor = false := by
  cases b <;> decide

/-- `hide_all` emits only close dispatches and keyword writes, never a
movecursor. -/
theorem hide_all_not_moveCursor (env : Env) (cfg : Config) (ex : Option String) :
    ∀ a ∈ hide_all env cfg ex, a.isMoveCursor = false := by
  intro a ha
  unfold hide_all at ha
  rcases List.mem_append.mp ha with h | h
  · have hc := hide_entries_all_close env ex cfg a h
    cases a <;> simp_all [Act.isClose, Act.isMoveCursor]
  · rcases ex with _ | W
    · exact set_focus_mode_not_moveCursor false a (by simpa using h)
    · simp at h

/-- Every rule injected for a placement is a keyword write. -/
theorem rule_acts_all_keyword (p : Plasmoid) (x y : Int) :
    ∀ a ∈ rule_acts p x y, a.isKeywordSet = true := by
  intro a ha
  simp [rule_acts] at ha
  rcases ha with h | h | h <;> subst h <;> rfl

/-- Everything `set_window_rules` emits is a keyword write. -/
theorem set_window_rules_all_keyword {env : Env} {p : Plasmoid} {racts : List Act}
    (h : set_window_rules env p = some racts) :
    ∀ a ∈ racts, a.isKeywordSet = true := by
  unfold set_window_rules at h
  split at h
  · simp only [Option.some.injEq] at h; subst h; intro a ha; cases ha
  · split at h
    · simp only [Option.some.injEq] at h; subst h; intro a ha; cases ha
    · split at h
      · simp only [Option.some.injEq] at h; subst h; intro a ha; cases ha
      · split at h
        · simp at h
        · simp only [Option.some.injEq] at h; subst h
          exact rule_acts_all_keyword _ _ _

/-- `show` never emits a movecursor dispatch: the nudge lives in `toggle`. -/
theorem show_widget_not_moveCursor (env : Env) (cfg : Config) (name : String) :
    ∀ a ∈ (show_widget env cfg name).2, a.isMoveCursor = false := by
  intro a ha
  unfold show_widget at ha
  split at ha
  · cases ha
  · split at ha
    · unfold show_visible at ha
      rcases List.mem_cons.mp ha with h | h
      · subst h; rfl
      · exact hide_all_not_moveCursor env cfg (some name) a h
    · simp only [show_cold] at ha
      split at ha
      · rcases List.mem_append.mp ha with h | h
        · exact set_focus_mode_not_moveCursor true a h
        · exact hide_all_not_moveCursor env cfg (some name) a h
      · rename_i p _ _ racts hr
        have keyword_or : ∀ b ∈ set_focus_mode true ++ hide_all env cfg (some name) ++ racts,
            b.isMoveCursor = false := by
          intro b hb
          rcases List.mem_append.mp hb with hb1 | hb1
          · rcases List.mem_append.mp hb1 with hb2 | hb2
            · exact set_focus_mode_not_moveCursor true b hb2
            · exact hide_all_not_moveCursor env cfg (some name) b hb2
          · have hk := set_window_rules_all_keyword hr b hb1
            cases b <;> simp_all [Act.isKeywordSet, Act.isMoveCursor]
        split at ha
        · split at ha
          · exact keyword_or a ha
          · rcases List.mem_append.mp ha with h | h
            · rcases List.mem_append.mp h with h1 | h1
              · exact keyword_or a h1
              · simp at h1; subst h1; rfl
            · split at h
              · simp at h; subst h; rfl
              · cases h
        · rcases List.mem_append.mp ha with h | h
          · rcases List.mem_append.mp h with h1 | h1
            · exact keyword_or a h1
            · simp at h1; subst h1; rfl
          · split at h
            · simp at h; subst h; rfl
            · cases h

/-! ### C4 — the trailing cursor nudge -/

/-- C4 counterexample: with the widget hidden, discovery succeeding and
the activation call failing, `toggle` propagates the error from `show`
before reaching `nudge_cursor`: although the cursor is available, the
toggle trace contains zero movecursor dispatches. -/
theorem C4_counterexample :
    actErrEnv.cursor = some (100, 100) ∧
    (toggle actErrEnv cfgOne "w").1 = Outcome.err "fail" ∧
    (toggle actErrEnv cfgOne "w").2.countP Act.isMoveCursor = 0 := by
  refine ⟨rfl, by decide, by decide⟩

/-- C4 (amended): for every known widget name, `toggle` is followed by the
cursor nudge after the hide branch and after a successful show branch; but
when the show branch returns an error, the error propagates out of
`toggle` before `nudge_cursor` runs, so no movecursor dispatch occurs. -/
theorem C4_nudge_skipped_when_show_fails (env : Env) (cfg : Config) (name : String)
    (p : Plasmoid) (hp : List.lookup name cfg = some p) :
    (is_visible env p.title = true →
      toggle env cfg name =
        (Outcome.ok, hide env p.title ++ set_focus_mode false ++ nudge_cursor env)) ∧
    (is_visible env p.title = false → (show_widget env cfg name).1 = Outcome.ok →
      toggle env cfg name =
        (Outcome.ok, (show_widget env cfg name).2 ++ nudge_cursor env)) ∧
    (is_visible env p.title = false → (show_widget env cfg name).1 ≠ Outcome.ok →
      toggle env cfg name = show_widget env cfg name ∧
      ∀ a ∈ (toggle env cfg name).2, a.isMoveCursor = false) := by
  refine ⟨fun hv => ?_, fun hv hok => ?_, fun hv hok => ?_⟩
  · simp [toggle, hp, hv]
  · rcases hs : show_widget env cfg name with ⟨o, acts⟩
    rw [hs] at hok
    simp at hok
    subst hok
    simp [toggle, hp, hv, hs]
  · rcases hs : show_widget env cfg name with ⟨o, acts⟩
    rw [hs] at hok
    simp at hok
    have ht : toggle env cfg name = (o, acts) := by
      cases o
      · exact absurd rfl hok
      · simp [toggle, hp, hv, hs]
      · simp [toggle, hp, hv, hs]
    refine ⟨by rw [ht], ?_⟩
    rw [ht]
    intro a ha
    exact show_widget_not_moveCursor env cfg name a (by rw [hs]; exact ha)

/-- C4 witness: the hide branch is followed by the nudge. -/
theorem C4_witness :
    toggle visEnv cfgOne "w" =
      (Outcome.ok,
       hide visEnv wideWidget.title ++ set_focus_mode false ++ nudge_cursor visEnv) :=
  (C4_nudge_skipped_when_show_fails visEnv cfgOne "w" wideWidget (by decide)).1 (by decide)

/-- With an `except` widget, `hide_all` contributes nothing to any count
of non-close acts. -/
theorem hide_all_some_countP_zero (env : Env) (cfg : Config) (W : String)
    (q : Act → Bool) (hq : ∀ t, q (Act.dispatchClose t) = false) :
    (hide_all env cfg (some W)).countP q = 0 := by
  rw [List.countP_eq_zero]
  intro a ha
  unfold hide_all at ha
  simp only [Option.isNone_some, Bool.false_eq_true, if_false, List.append_nil] at ha
  have hc := hide_entries_all_close env (some W) cfg a ha
  cases a
  case dispatchClose t => simp [hq t]
  all_goals simp [Act.isClose] at hc

/-! ### C5 — show while already visible -/

/-- C5: while the widget's window is already visible, `show` dispatches
exactly one focus-by-title, hides every other widget, and returns `Ok`,
with zero spawns, zero activation calls, and zero keyword writes (so no
window-rule injection and no focus-mode change). -/
theorem C5_show_refocus_when_visible (env : Env) (cfg : Config) (name : String)
    (p : Plasmoid) (hp : List.lookup name cfg = some p)
    (hv : is_visible env p.title = true) :
    show_widget env cfg name =
      (Outcome.ok, Act.dispatchFocus p.title :: hide_all env cfg (some name)) ∧
    (show_widget env cfg name).2.countP Act.isFocus = 1 ∧
    (show_widget env cfg name).2.countP Act.isSpawn = 0 ∧
    (show_widget env cfg name).2.countP Act.isActivate = 0 ∧
    (show_widget env cfg name).2.countP Act.isKeywordSet = 0 := by
  have hshow : show_widget env cfg name =
      (Outcome.ok, Act.dispatchFocus p.title :: hide_all env cfg (some name)) := by
    simp [show_widget, hp, hv, show_visible]
  refine ⟨hshow, ?_, ?_, ?_, ?_⟩ <;> rw [hshow] <;>
    simp only [List.countP_cons] <;>
    rw [hide_all_some_countP_zero env cfg name _ (fun t => rfl)] <;>
    rfl

/-- C5 witness: in `visEnv` with `cfgOne`, showing the visible widget is
exactly a refocus. -/
theorem C5_witness :
    show_widget visEnv cfgOne "w" =
      (Outcome.ok, Act.dispatchFocus wideWidget.title :: hide_all visEnv cfgOne (some "w")) ∧
    (show_widget visEnv cfgOne "w").2.countP Act.isFocus = 1 ∧
    (show_widget visEnv cfgOne "w").2.countP Act.isSpawn = 0 ∧
    (show_widget visEnv cfgOne "w").2.countP Act.isActivate = 0 ∧
    (show_widget visEnv cfgOne "w").2.countP Act.isKeywordSet = 0 :=
  C5_show_refocus_when_visible visEnv cfgOne "w" wideWidget (by decide) (by decide)

/-! ### C6 — hide_all -/

/-- C6 counterexample: two configured widgets share the title `"T"`, the
window is visible, and `hide_all(except = "a")` does issue a close
dispatch for widget `"a"`'s title (it comes from the other entry `"b"`),
contradicting the claim's "never issues a close dispatch for W's title". -/
theorem C6_counterexample :
    ("a", dupA) ∈ cfgDup ∧ dupB.title = dupA.title ∧
    Act.dispatchClose dupA.title ∈ hide_all visEnv cfgDup (some "a") := by
  refine ⟨by decide, by decide, by decide⟩

/-- C6 (amended): `hide_all(except = W)` issues exactly one close dispatch
per other configured entry whose window is visible and never closes the
`W` entry itself; provided no other widget shares `W`'s title, no close
for `W`'s title is issued.  `hide_all(except = W)` performs no keyword
write (leaving the focus mode unchanged), while `hide_all(None)`
additionally resets the focus mode to its default. -/
theorem C6_hide_all_behavior (env : Env) (cfg : Config) (W : String) (p : Plasmoid)
    (_hW : (W, p) ∈ cfg) :
    hide_all env cfg (some W) =
      (cfg.filter (fun np => decide (np.1 ≠ W) && is_visible env np.2.title)).map
        (fun np => Act.dispatchClose np.2.title) ∧
    ((∀ nq ∈ cfg, nq.1 ≠ W → nq.2.title ≠ p.title) →
      Act.dispatchClose p.title ∉ hide_all env cfg (some W)) ∧
    (∀ k v, Act.keywordSet k v ∉ hide_all env cfg (some W)) ∧
    hide_all env cfg none =
      (cfg.filter (fun np => is_visible env np.2.title)).map
        (fun np => Act.dispatchClose np.2.title) ++ set_focus_mode false := by
  have h1 : hide_all env cfg (some W) =
      (cfg.filter (fun np => decide (np.1 ≠ W) && is_visible env np.2.title)).map
        (fun np => Act.dispatchClose np.2.title) := by
    unfold hide_all
    simp only [Option.isNone_some, Bool.false_eq_true, if_false, List.append_nil]
    exact hide_entries_some_eq env W cfg
  refine ⟨h1, ?_, ?_, ?_⟩
  · intro hT hmem
    rw [h1] at hmem
    simp only [List.mem_map, List.mem_filter, Bool.and_eq_true, decide_eq_true_eq] at hmem
    obtain ⟨np, ⟨hnp, hne, _⟩, heq⟩ := hmem
    exact hT np hnp hne (by injection heq)
  · intro k v hmem
    rw [h1] at hmem
    simp only [List.mem_map] at hmem
    obtain ⟨np, _, heq⟩ := hmem
    cases heq
  · unfold hide_all
    simp only [Option.isNone_none, if_true]
    rw [hide_entries_none_eq env cfg]

/-- C6 witness: with two distinct-title widgets both visible,
`hide_all(except = "w")` is exactly the close dispatches of the filtered
other entries. -/
theorem C6_witness :
    hide_all visTwoEnv cfgTwo (some "w") =
      (cfgTwo.filter (fun np => decide (np.1 ≠ "w") && is_visible visTwoEnv np.2.title)).map
        (fun np => Act.dispatchClose np.2.title) :=
  (C6_hide_all_behavior visTwoEnv cfgTwo "w" wideWidget (by decide)).1

/-! ### C7 — the active-window-changed handler -/

/-- C7: on an active-window change to a configured widget title the
handler sets the flag and issues no `hide_all`; to a non-widget title with
the flag unset it issues nothing; to a non-widget title with the flag set
it clears the flag and issues exactly one `hide_all(None)`.  The read-and-
clear is the source's single `AtomicBool::swap(false, _)`, modelled as the
handler's one-step flag transition. -/
theorem C7_active_window_cases (cfg : Config) (flag : Bool) (t : String) :
    ((cfg.map (fun np => np.2.title)).contains t = true →
      active_window_handler (cfg.map (fun np => np.2.title)) flag (some t) = (true, [])) ∧
    ((cfg.map (fun np => np.2.title)).contains t = false → flag = false →
      active_window_handler (cfg.map (fun np => np.2.title)) flag (some t) = (false, [])) ∧
    ((cfg.map (fun np => np.2.title)).contains t = false → flag = true →
      active_window_handler (cfg.map (fun np => np.2.title)) flag (some t) = (false, [none])) := by
  refine ⟨fun h => ?_, fun h hf => ?_, fun h hf => ?_⟩
  · unfold active_window_handler
    split
    · rfl
    · rename_i hcond
      exact absurd h hcond
  · subst hf
    unfold active_window_handler
    split
    · rename_i hcond
      exact absurd
        (show (List.map (fun np => np.2.title) cfg).contains t = true from hcond)
        (by rw [h]; simp)
    · rfl
  · subst hf
    unfold active_window_handler
    split
    · rename_i hcond
      exact absurd
        (show (List.map (fun np => np.2.title) cfg).contains t = true from hcond)
        (by rw [h]; simp)
    · rfl

/-- C7 witness: focusing the configured title `"T"` sets the flag and
issues no `hide_all`. -/
theorem C7_witness :
    active_window_handler (cfgOne.map (fun np => np.2.title)) false (some "T") =
      (true, []) :=
  (C7_active_window_cases cfgOne false "T").1 (by decide)

/-! ### C9 — client-query failure reads as Hidden -/

/-- C9: when the window-manager client query fails, `is_visible` is false
for every title, so `hide` issues no close dispatch and `show` and
`toggle` take their cold (not-visible) path. -/
theorem C9_query_failure_means_hidden (env : Env) (cfg : Config) (name t : String)
    (p : Plasmoid) (hc : env.clients = none) (hp : List.lookup name cfg = some p) :
    is_visible env t = false ∧
    hide env t = [] ∧
    show_widget env cfg name = show_cold env cfg name p ∧
    ((show_widget env cfg name).1 = Outcome.ok →
      toggle env cfg name = (Outcome.ok, (show_widget env cfg name).2 ++ nudge_cursor env)) ∧
    ((show_widget env cfg name).1 ≠ Outcome.ok →
      toggle env cfg name = show_widget env cfg name) := by
  have hvp : is_visible env p.title = false := by simp [is_visible, hc]
  refine ⟨by simp [is_visible, hc], by simp [hide, is_visible, hc], ?_, ?_, ?_⟩
  · simp [show_widget, hp, hvp]
  · rcases hs : show_widget env cfg name with ⟨o, acts⟩
    intro hok
    simp at hok
    subst hok
    simp [toggle, hp, hvp, hs]
  · rcases hs : show_widget env cfg name with ⟨o, acts⟩
    intro hok
    simp at hok
    cases o
    · exact absurd rfl hok
    · simp [toggle, hp, hvp, hs]
    · simp [toggle, hp, hvp, hs]

/-- C9 witness: with a failed client query nothing reads as visible and
`show` takes the cold branch. -/
theorem C9_witness :
    is_visible noClientsEnv "T" = false ∧
    hide noClientsEnv "T" = [] ∧
    show_widget noClientsEnv cfgOne "w" = show_cold noClientsEnv cfgOne "w" wideWidget :=
  ⟨(C9_query_failure_means_hidden noClientsEnv cfgOne "w" "T" wideWidget rfl (by decide)).1,
   (C9_query_failure_means_hidden noClientsEnv cfgOne "w" "T" wideWidget rfl (by decide)).2.1,
   (C9_query_failure_means_hidden noClientsEnv cfgOne "w" "T" wideWidget rfl (by decide)).2.2.1⟩

/-- When the cursor query fails, no movecursor dispatch appears anywhere
in a `toggle` trace. -/
theorem toggle_not_moveCursor_of_no_cursor (env : Env) (cfg : Config) (name : String)
    (hc : env.cursor = none) :
    ∀ a ∈ (toggle env cfg name).2, a.isMoveCursor = false := by
  intro a ha
  unfold toggle at ha
  split at ha
  · cases ha
  · split at ha
    · rename_i hv
      rcases List.mem_append.mp ha with h | h
      · rcases List.mem_append.mp h with h1 | h1
        · unfold hide at h1
          rw [if_pos hv] at h1
          simp at h1
          subst h1
          rfl
        · exact set_focus_mode_not_moveCursor false a h1
      · simp [nudge_cursor, hc] at h
    · split at ha
      · rename_i acts heq
        rcases List.mem_append.mp ha with h | h
        · exact show_widget_not_moveCursor env cfg name a (by rw [heq]; exact h)
        · simp [nudge_cursor, hc] at h
      · exact show_widget_not_moveCursor env cfg name a ha

/-! ### C10 — the cursor nudge itself -/

/-- C10: when the cursor query fails, `nudge_cursor` issues zero
movecursor dispatches (so the trailing nudge after `toggle` is silently
skipped: the whole toggle trace contains none); when it succeeds at
(x, y), it issues exactly two, first to (x + 1, y) and then back to
(x, y). -/
theorem C10_nudge_cursor_dispatches (env : Env) (cfg : Config) (name : String) :
    (env.cursor = none → nudge_cursor env = [] ∧
      (toggle env cfg name).2.countP Act.isMoveCursor = 0) ∧
    (∀ x y, env.cursor = some (x, y) →
      nudge_cursor env = [Act.moveCursor (x + 1) y, Act.moveCursor x y]) := by
  constructor
  · intro hc
    refine ⟨by simp [nudge_cursor, hc], ?_⟩
    rw [List.countP_eq_zero]
    intro a ha
    simp [toggle_not_moveCursor_of_no_cursor env cfg name hc a ha]
  · intro x y hc
    simp [nudge_cursor, hc]

/-- C10 witness: zero dispatches without a cursor; exactly two with one. -/
theorem C10_witness :
    (nudge_cursor noCursorEnv = [] ∧
      (toggle noCursorEnv cfgOne "w").2.countP Act.isMoveCursor = 0) ∧
    nudge_cursor baseEnv = [Act.moveCursor 101 100, Act.moveCursor 100 100] :=
  ⟨(C10_nudge_cursor_dispatches noCursorEnv cfgOne "w").1 rfl,
   (C10_nudge_cursor_dispatches baseEnv cfgOne "w").2 100 100 rfl⟩
